import Mathlib

/-!
# The class service_sample of response-sample.cpp

A shallow embedding of the SOME/IP response endpoint: the request handler
`on_message` (length check, field extraction, operation switch, 3-byte
response), the registration handler `on_state`, the shutdown routine `stop`
and the offer thread body `run`.

Conventions of the embedding

* A byte is a natural number below 256; a payload is a list of bytes.  Every
  C++ integer conversion is written out as a reduction modulo `2 ^ w`.
* Calls into the vsomeip runtime (`app_->...`), operations on the
  `std::thread` member, the sleep of the offer thread and the two messages
  written to `std::cerr` are recorded, in program order, in the field `calls`.
  Text written to `std::cout` is not recorded.
* The offer thread is followed statement by statement through `run`.  The test
  of `blocked_` (line 73) and the call of `condition_.wait` (line 74) are two
  separate steps, and a thread inside `wait` moves on only when it is notified.
  `stop` writes `blocked_` and notifies without holding `mutex_`, so a
  notification that arrives between the two steps wakes nobody; the thread then
  waits for good and a `join` on it does not return.  Wake-ups without a
  notification, which the C++ library permits but does not promise, are not
  part of the embedding.
* `init` and `start` are outside the embedding; of the threads that remain
  only the offer thread ever locks `mutex_`.
* `sample-ids.hpp` is not part of the sources at hand; the service, instance
  and method identifiers are compile-time constants and every call carries the
  same ones, so the recorded calls do not repeat them.
* The member `seqnum_` (line 186) is never read or written: inside
  `on_message` the local variable of the same name hides it.
-/

namespace ResponseSample

/-- Values of `vsomeip::state_type_e` handed to the state handler. -/
inductive state_type_e
  | ST_REGISTERED
  | ST_DEREGISTERED
  deriving DecidableEq, Repr

/-- Observable actions of the endpoint, in the order the code performs them. -/
inductive Call
  | offer_service
  | stop_offer_service
  | clear_all_handler
  | app_stop
  | send (payload : List Nat)
  | thread_join
  | thread_detach
  | sleep_for (ms : Nat)
  | cerr_invalid_size (length : Nat)
  | cerr_invalid_operation
  deriving DecidableEq, Repr

/-- Control points of the offer thread inside `run` (lines 70-81): before the
test of line 71, before the test of line 73, before the call of line 74, inside
`condition_.wait`, before the test of line 75, before lines 76, 77 and 79, and
after `run` has returned. -/
inductive run_pc
  | loop_test
  | wait_test
  | wait_call
  | waiting
  | registered_test
  | call_offer
  | clear_blocked
  | sleep
  | returned
  deriving DecidableEq, Repr

/-- Data members of `service_sample` (lines 178-186) together with the control
point of the offer thread and the record of calls.  `offer_thread_` is
`some t` while the `std::thread` object is joinable and stands for thread `t`,
and `none` once it has been joined or detached.  `mutex_` is true while the
mutex is locked. -/
structure service_sample where
  is_registered_ : Bool
  use_static_routing_ : Bool
  mutex_ : Bool
  blocked_ : Bool
  running_ : Bool
  offer_thread_ : Option Nat
  run_at : run_pc
  calls : List Call
  deriving DecidableEq, Repr

namespace service_sample

/-- Constructor (lines 14-21); `worker` is the id of the thread it starts. -/
def construct (_use_static_routing : Bool) (worker : Nat) : service_sample :=
  { is_registered_ := false
    use_static_routing_ := _use_static_routing
    mutex_ := false
    blocked_ := false
    running_ := true
    offer_thread_ := some worker
    run_at := run_pc.loop_test
    calls := [] }

/-- Append one action to the record of calls. -/
def emit (s : service_sample) (c : Call) : service_sample :=
  { s with calls := s.calls ++ [c] }

/-- Lines 62-64. -/
def offer (s : service_sample) : service_sample :=
  s.emit Call.offer_service

/-- Lines 66-68. -/
def stop_offer (s : service_sample) : service_sample :=
  s.emit Call.stop_offer_service

/-! ## Request handling -/

/-- The conversion `static_cast<char>` of a byte.  Whether `char` is signed is
left to the platform, so it is a parameter. -/
def to_char (char_is_signed : Bool) (b : Nat) : Int :=
  if char_is_signed && decide (128 ≤ b) then (b : Int) - 256 else (b : Int)

/-- The local variables filled in by lines 117-124. -/
structure request_fields where
  operation : Int
  LED_position : Nat
  op_parameter : Nat
  seqnum_ : Nat
  deriving DecidableEq, Repr

/-- Lines 117-124: the four fields read from the payload bytes. -/
def extract (char_is_signed : Bool) (data : List Nat) : request_fields :=
  { operation := to_char char_is_signed (data.getD 0 0)
    LED_position := data.getD 1 0 % 2 ^ 8
    op_parameter := (((data.getD 2 0 % 2 ^ 16) <<< 8) ||| (data.getD 3 0 % 2 ^ 16)) % 2 ^ 16
    seqnum_ := (((data.getD 4 0 % 2 ^ 16) <<< 8) ||| (data.getD 5 0 % 2 ^ 16)) % 2 ^ 16 }

/-- Lines 131-148: the switch over the operation character; the result is the
final value of `valid_operation`. -/
def valid_operation (operation : Int) : Bool :=
  if operation = 0x31 then true
  else if operation = 0x32 then true
  else if operation = 0x33 then true
  else if operation = 0x34 then true
  else false

/-- Line 154: the result code put into every response (2 = OK). -/
def result : Nat := 2

/-- Lines 159-163: the three bytes of the response. -/
def response_payload_data (result seqnum_ : Nat) : List Nat :=
  [ (result &&& 0xFF) % 2 ^ 8,
    ((seqnum_ >>> 8) &&& 0xFF) % 2 ^ 8,
    (seqnum_ &&& 0xFF) % 2 ^ 8 ]

/-- Lines 100-175. -/
def on_message (char_is_signed : Bool) (data : List Nat) (s : service_sample) :
    service_sample :=
  let length := data.length
  if length ≠ 6 then
    s.emit (Call.cerr_invalid_size length)
  else
    let f := extract char_is_signed data
    if !valid_operation f.operation then
      s.emit Call.cerr_invalid_operation
    else
      s.emit (Call.send (response_payload_data result f.seqnum_))

/-! ## Registration, offer thread and shutdown -/

/-- Lines 83-95. -/
def on_state (_state : state_type_e) (s : service_sample) : service_sample :=
  if _state = state_type_e.ST_REGISTERED then
    offer { s with is_registered_ := true }
  else
    stop_offer { s with is_registered_ := false }

/-- One step of the offer thread through `run` (lines 70-81).  The lock of
line 72 is taken together with the test of line 71 and given back at the end of
the loop body, after the sleep.  `condition_.wait` gives the lock back on entry;
inside it the thread does not move by itself. -/
def run_step (s : service_sample) : service_sample :=
  match s.run_at with
  | run_pc.loop_test =>
    if s.running_ then { s with mutex_ := true, run_at := run_pc.wait_test }
    else { s with run_at := run_pc.returned }
  | run_pc.wait_test =>
    if !s.blocked_ then { s with run_at := run_pc.wait_call }
    else { s with run_at := run_pc.registered_test }
  | run_pc.wait_call => { s with mutex_ := false, run_at := run_pc.waiting }
  | run_pc.waiting => s
  | run_pc.registered_test =>
    if s.is_registered_ then { s with run_at := run_pc.call_offer }
    else { s with run_at := run_pc.sleep }
  | run_pc.call_offer => { offer s with run_at := run_pc.clear_blocked }
  | run_pc.clear_blocked => { s with blocked_ := false, run_at := run_pc.sleep }
  | run_pc.sleep =>
    { s.emit (Call.sleep_for 1000) with mutex_ := false, run_at := run_pc.loop_test }
  | run_pc.returned => s

/-- The offer thread running on its own for `n` steps. -/
def run : Nat → service_sample → service_sample
  | 0, s => s
  | n + 1, s => run n (run_step s)

/-- The call `condition_.notify_one()`: a thread inside `condition_.wait`
takes the lock again and goes back to the test of line 73; if no thread is
inside `wait` the notification has no effect. -/
def notify_one (s : service_sample) : service_sample :=
  if s.run_at = run_pc.waiting then { s with mutex_ := true, run_at := run_pc.wait_test }
  else s

/-- Lines 46-50 of `stop`: the flags are set, the handlers cleared, the offer
withdrawn and the condition notified, all without taking `mutex_`. -/
def stop_request (s : service_sample) : service_sample :=
  let s := { s with running_ := false }
  let s := { s with blocked_ := true }
  let s := s.emit Call.clear_all_handler
  let s := stop_offer s
  notify_one s

end service_sample

/-- How a call of `stop` ends: it returns, or its caller stays inside
`offer_thread_.join()` (line 53) because `run` never returns.  Either way the
state reached is kept. -/
inductive stop_outcome
  | returned (s : service_sample)
  | join_blocked (s : service_sample)
  deriving DecidableEq, Repr

/-- The state in which a call of `stop` has ended. -/
def stop_outcome.state : stop_outcome → service_sample
  | stop_outcome.returned s => s
  | stop_outcome.join_blocked s => s

namespace service_sample

/-- Lines 45-59.  `caller` is the id of the calling thread.  `join` gives the
offer thread the time it needs: after `stop_request` it either returns from
`run` within six steps or sits inside `condition_.wait` with nobody left to
notify it (`run_returns_after_stop` and `run_never_returns` below).  In the
first case the join is recorded and `stop` goes on to `app_->stop()`; in the
second the caller stays in `join`. -/
def stop (caller : Nat) (s : service_sample) : stop_outcome :=
  let s := stop_request s
  if some caller ≠ s.offer_thread_ then
    if s.offer_thread_.isSome then
      let t := run 6 s
      if t.run_at = run_pc.returned then
        stop_outcome.returned
          (emit { t.emit Call.thread_join with offer_thread_ := none } Call.app_stop)
      else
        stop_outcome.join_blocked t
    else
      stop_outcome.returned (s.emit Call.app_stop)
  else
    stop_outcome.returned
      (emit { s.emit Call.thread_detach with offer_thread_ := none } Call.app_stop)

end service_sample

/-! ## Executions -/

/-- What can happen to the endpoint: a runtime notification, a request, a call
of `stop` from some thread (followed until it returns or stays in `join`), or
one step of the offer thread. -/
inductive Action
  | state (e : state_type_e)
  | message (char_is_signed : Bool) (data : List Nat)
  | stop (caller : Nat)
  | worker
  deriving DecidableEq, Repr

/-- Effect of one action. -/
def step (s : service_sample) : Action → service_sample
  | Action.state e => s.on_state e
  | Action.message c d => s.on_message c d
  | Action.stop caller => (s.stop caller).state
  | Action.worker => s.run_step

/-- Effect of a sequence of actions, first action first. -/
def exec (s : service_sample) (acts : List Action) : service_sample :=
  acts.foldl step s

/-- The payloads handed to `app_->send`, oldest first. -/
def sent : List Call → List (List Nat)
  | [] => []
  | Call.send p :: cs => p :: sent cs
  | _ :: cs => sent cs

/-! ## Specification-side readings of the wire format -/

/-- The six request bytes written back from the extracted fields, multi-byte
fields big-endian, as the field layout of the request describes them. -/
def request_bytes_of_fields (f : service_sample.request_fields) : List Nat :=
  [ (f.operation % 256).toNat, f.LED_position,
    f.op_parameter / 256, f.op_parameter % 256,
    f.seqnum_ / 256, f.seqnum_ % 256 ]

/-- A 3-byte response read back as result code and big-endian sequence
number. -/
def response_fields_of_bytes : List Nat → Option (Nat × Nat)
  | [r, hi, lo] => some (r, hi * 256 + lo)
  | _ => none

/-- Whether the service is on offer according to the record of calls: the last
call among offer_service and stop_offer_service was offer_service. -/
def offered (calls : List Call) : Bool :=
  calls.foldl (fun o c =>
    match c with
    | Call.offer_service => true
    | Call.stop_offer_service => false
    | _ => o) false

/-! ## Auxiliary facts -/

theorem and_0xFF (x : Nat) : x &&& 0xFF = x % 256 :=
  Nat.and_pow_two_sub_one_eq_mod x 8

theorem be16 (a b : Nat) (ha : a < 256) (hb : b < 256) :
    (((a % 2 ^ 16) <<< 8) ||| (b % 2 ^ 16)) % 2 ^ 16 = a * 256 + b := by
  rw [Nat.mod_eq_of_lt (show a < 2 ^ 16 by omega), Nat.mod_eq_of_lt (show b < 2 ^ 16 by omega),
    Nat.shiftLeft_eq, Nat.mul_comm, ← Nat.mul_add_lt_is_or (by omega)]
  omega

theorem response_bytes (r q : Nat) :
    service_sample.response_payload_data r q = [r % 256, q / 256 % 256, q % 256] := by
  simp [service_sample.response_payload_data, and_0xFF, Nat.shiftRight_eq_div_pow]

theorem sent_append (xs ys : List Call) : sent (xs ++ ys) = sent xs ++ sent ys := by
  induction xs with
  | nil => rfl
  | cons c cs ih => cases c <;> simp [sent, ih]

theorem to_char_of_lt (c : Bool) (b : Nat) (h : b < 128) : service_sample.to_char c b = b := by
  have : ¬ 128 ≤ b := by omega
  simp [service_sample.to_char, this]

theorem valid_operation_iff (c : Bool) (b : Nat) (h : b < 256) :
    service_sample.valid_operation (service_sample.to_char c b) = true ↔
      (b = 0x31 ∨ b = 0x32 ∨ b = 0x33 ∨ b = 0x34) := by
  unfold service_sample.valid_operation service_sample.to_char
  by_cases hb : 128 ≤ b <;> cases c <;> simp [hb] <;> omega

open service_sample

/-! ## Auxiliary facts about the offer thread and shutdown -/

theorem exec_states_count_stop_offer (events : List state_type_e) (s : service_sample) :
    (exec s (events.map Action.state)).calls.count Call.stop_offer_service =
      s.calls.count Call.stop_offer_service + events.count state_type_e.ST_DEREGISTERED := by
  induction events generalizing s with
  | nil => simp [exec]
  | cons e es ih =>
    have hstep : exec s ((e :: es).map Action.state) = exec (on_state e s) (es.map Action.state) := rfl
    rw [hstep, ih]
    cases e
    · simp [on_state, offer, stop_offer, emit, List.count_append]
    · simp [on_state, offer, stop_offer, emit, List.count_append]
      omega

/-- C1. A 6-byte request whose first byte is one of 0x31, 0x32, 0x33, 0x34
makes on_message send exactly one response, whose payload is the three bytes
2, b4, b5 (result OK and the sequence number of the request), whatever b1, b2
and b3 are; no other member and no other call is touched. -/
theorem on_message_valid_request (c : Bool) (s : service_sample) (b0 b1 b2 b3 b4 b5 : Nat)
    (hop : b0 = 0x31 ∨ b0 = 0x32 ∨ b0 = 0x33 ∨ b0 = 0x34)
    (h4 : b4 < 256) (h5 : b5 < 256) :
    on_message c [b0, b1, b2, b3, b4, b5] s = s.emit (Call.send [2, b4, b5]) ∧
    sent (on_message c [b0, b1, b2, b3, b4, b5] s).calls = sent s.calls ++ [[2, b4, b5]] := by
  have hv : valid_operation (to_char c b0) = true :=
    (valid_operation_iff c b0 (by omega)).2 hop
  have hs : (((b4 % 2 ^ 16) <<< 8) ||| (b5 % 2 ^ 16)) % 2 ^ 16 = b4 * 256 + b5 := be16 b4 b5 h4 h5
  have hr : response_payload_data result (b4 * 256 + b5) = [2, b4, b5] := by
    rw [response_bytes]
    have e1 : (b4 * 256 + b5) / 256 % 256 = b4 := by omega
    have e2 : (b4 * 256 + b5) % 256 = b5 := by omega
    simp [result, e1, e2]
  have key : on_message c [b0, b1, b2, b3, b4, b5] s = s.emit (Call.send [2, b4, b5]) := by
    have h6 : [b0, b1, b2, b3, b4, b5].length = 6 := rfl
    simp only [on_message, extract, h6, List.getD_cons_zero, List.getD_cons_succ, hv, hs, hr]
    simp
  refine ⟨key, ?_⟩
  rw [key]
  simp [emit, sent_append, sent]

/-- The request 31 02 01 F4 00 07 is answered by 02 00 07. -/
theorem on_message_valid_request_witness :
    (((0x31 : Nat) = 0x31 ∨ (0x31 : Nat) = 0x32 ∨ (0x31 : Nat) = 0x33 ∨ (0x31 : Nat) = 0x34) ∧
      (0x00 : Nat) < 256 ∧ (0x07 : Nat) < 256) ∧
    (on_message true [0x31, 0x02, 0x01, 0xF4, 0x00, 0x07] (construct false 1) =
        (construct false 1).emit (Call.send [2, 0x00, 0x07]) ∧
      sent (on_message true [0x31, 0x02, 0x01, 0xF4, 0x00, 0x07] (construct false 1)).calls =
        sent (construct false 1).calls ++ [[2, 0x00, 0x07]]) :=
  ⟨by decide,
    on_message_valid_request true (construct false 1) 0x31 0x02 0x01 0xF4 0x00 0x07
      (by decide) (by decide) (by decide)⟩

/-- C2. A payload whose length is not 6 is rejected on its length alone:
on_message writes the invalid-size message, sends nothing and changes nothing
else, and the outcome is the same for every payload of that length, so no byte
of the payload has any influence on it. -/
theorem on_message_invalid_length (c : Bool) (data : List Nat) (s : service_sample)
    (h : data.length ≠ 6) :
    on_message c data s = s.emit (Call.cerr_invalid_size data.length) ∧
    sent (on_message c data s).calls = sent s.calls ∧
    ∀ (c2 : Bool) (data2 : List Nat), data2.length = data.length →
      on_message c2 data2 s = on_message c data s := by
  have key : ∀ (k : Bool) (d : List Nat), d.length ≠ 6 →
      on_message k d s = s.emit (Call.cerr_invalid_size d.length) := by
    intro k d hd
    simp [on_message, hd]
  refine ⟨key c data h, ?_, ?_⟩
  · rw [key c data h]
    simp [emit, sent_append, sent]
  · intro c2 data2 h2
    rw [key c data h, key c2 data2 (by rw [h2]; exact h), h2]

/-- Five bytes starting with a valid operation code are rejected for their
length. -/
theorem on_message_invalid_length_witness :
    [0x31, 0x02, 0x01, 0xF4, 0x00].length ≠ 6 ∧
    (on_message true [0x31, 0x02, 0x01, 0xF4, 0x00] (construct false 1) =
        (construct false 1).emit (Call.cerr_invalid_size [0x31, 0x02, 0x01, 0xF4, 0x00].length) ∧
      sent (on_message true [0x31, 0x02, 0x01, 0xF4, 0x00] (construct false 1)).calls =
        sent (construct false 1).calls ∧
      ∀ (c2 : Bool) (data2 : List Nat), data2.length = [0x31, 0x02, 0x01, 0xF4, 0x00].length →
        on_message c2 data2 (construct false 1) =
          on_message true [0x31, 0x02, 0x01, 0xF4, 0x00] (construct false 1)) :=
  ⟨by decide, on_message_invalid_length true [0x31, 0x02, 0x01, 0xF4, 0x00] (construct false 1)
    (by decide)⟩

/-- C3. A 6-byte payload whose first byte is none of 0x31, 0x32, 0x33, 0x34 is
rejected for its operation: on_message writes the invalid-operation message,
sends nothing and changes nothing else.  This holds for every byte value,
those from 0x80 on included, whether or not char is signed. -/
theorem on_message_invalid_operation (c : Bool) (s : service_sample)
    (b0 b1 b2 b3 b4 b5 : Nat) (h0 : b0 < 256)
    (hop : b0 ≠ 0x31 ∧ b0 ≠ 0x32 ∧ b0 ≠ 0x33 ∧ b0 ≠ 0x34) :
    on_message c [b0, b1, b2, b3, b4, b5] s = s.emit Call.cerr_invalid_operation ∧
    sent (on_message c [b0, b1, b2, b3, b4, b5] s).calls = sent s.calls := by
  have hv : valid_operation (to_char c b0) = false := by
    cases hval : valid_operation (to_char c b0) with
    | false => rfl
    | true =>
      have := (valid_operation_iff c b0 h0).1 hval
      omega
  have key : on_message c [b0, b1, b2, b3, b4, b5] s = s.emit Call.cerr_invalid_operation := by
    have h6 : [b0, b1, b2, b3, b4, b5].length = 6 := rfl
    simp only [on_message, extract, h6, List.getD_cons_zero, hv]
    simp
  refine ⟨key, ?_⟩
  rw [key]
  simp [emit, sent_append, sent]

/-- The request 39 00 00 00 00 01 gets no response. -/
theorem on_message_invalid_operation_witness :
    ((0x39 : Nat) < 256 ∧
      ((0x39 : Nat) ≠ 0x31 ∧ (0x39 : Nat) ≠ 0x32 ∧ (0x39 : Nat) ≠ 0x33 ∧ (0x39 : Nat) ≠ 0x34)) ∧
    (on_message true [0x39, 0x00, 0x00, 0x00, 0x00, 0x01] (construct false 1) =
        (construct false 1).emit Call.cerr_invalid_operation ∧
      sent (on_message true [0x39, 0x00, 0x00, 0x00, 0x00, 0x01] (construct false 1)).calls =
        sent (construct false 1).calls) :=
  ⟨by decide,
    on_message_invalid_operation true (construct false 1) 0x39 0x00 0x00 0x00 0x00 0x01
      (by decide) (by decide)⟩

/-- C4. For a 6-byte buffer whose first byte is one of 0x31, 0x32, 0x33, 0x34
the fields read by on_message are operation = b0, LED_position = b1,
op_parameter = b2 * 256 + b3 and seqnum_ = b4 * 256 + b5, each within the width
of its type, and writing them back big-endian gives the six bytes again; bytes
2 and 3 come back unchanged for every one of the four operations. -/
theorem extract_round_trip (c : Bool) (b0 b1 b2 b3 b4 b5 : Nat)
    (hop : b0 = 0x31 ∨ b0 = 0x32 ∨ b0 = 0x33 ∨ b0 = 0x34)
    (h1 : b1 < 256) (h2 : b2 < 256) (h3 : b3 < 256) (h4 : b4 < 256) (h5 : b5 < 256) :
    (extract c [b0, b1, b2, b3, b4, b5]).operation = b0 ∧
    (extract c [b0, b1, b2, b3, b4, b5]).LED_position = b1 ∧
    (extract c [b0, b1, b2, b3, b4, b5]).op_parameter = b2 * 256 + b3 ∧
    (extract c [b0, b1, b2, b3, b4, b5]).seqnum_ = b4 * 256 + b5 ∧
    (0 ≤ (extract c [b0, b1, b2, b3, b4, b5]).operation ∧
      (extract c [b0, b1, b2, b3, b4, b5]).operation < 2 ^ 7) ∧
    (extract c [b0, b1, b2, b3, b4, b5]).LED_position < 2 ^ 8 ∧
    (extract c [b0, b1, b2, b3, b4, b5]).op_parameter < 2 ^ 16 ∧
    (extract c [b0, b1, b2, b3, b4, b5]).seqnum_ < 2 ^ 16 ∧
    request_bytes_of_fields (extract c [b0, b1, b2, b3, b4, b5]) = [b0, b1, b2, b3, b4, b5] := by
  have e0 : to_char c b0 = (b0 : Int) := to_char_of_lt c b0 (by omega)
  have e1 : b1 % 2 ^ 8 = b1 := Nat.mod_eq_of_lt (by omega)
  have e2 := be16 b2 b3 h2 h3
  have e3 := be16 b4 b5 h4 h5
  have hx : extract c [b0, b1, b2, b3, b4, b5] =
      { operation := (b0 : Int), LED_position := b1,
        op_parameter := b2 * 256 + b3, seqnum_ := b4 * 256 + b5 } := by
    simp only [extract, List.getD_cons_zero, List.getD_cons_succ, e0, e1, e2, e3]
  rw [hx]
  refine ⟨rfl, rfl, rfl, rfl, ⟨by simp, by simp; omega⟩, by simp; omega, by simp; omega,
    by simp; omega, ?_⟩
  have a0 : ((b0 : Int) % 256).toNat = b0 := by omega
  have a1 : (b2 * 256 + b3) / 256 = b2 := by omega
  have a2 : (b2 * 256 + b3) % 256 = b3 := by omega
  have a3 : (b4 * 256 + b5) / 256 = b4 := by omega
  have a4 : (b4 * 256 + b5) % 256 = b5 := by omega
  simp only [request_bytes_of_fields, a0, a1, a2, a3, a4]

/-- The fields of the request 32 09 AB CD FF FE (operation 2, which does not use
its parameter) give back the same six bytes. -/
theorem extract_round_trip_witness :
    (((0x32 : Nat) = 0x31 ∨ (0x32 : Nat) = 0x32 ∨ (0x32 : Nat) = 0x33 ∨ (0x32 : Nat) = 0x34) ∧
      (0x09 : Nat) < 256 ∧ (0xAB : Nat) < 256 ∧ (0xCD : Nat) < 256 ∧ (0xFF : Nat) < 256 ∧
      (0xFE : Nat) < 256) ∧
    (extract true [0x32, 0x09, 0xAB, 0xCD, 0xFF, 0xFE]).op_parameter = 0xAB * 256 + 0xCD ∧
    request_bytes_of_fields (extract true [0x32, 0x09, 0xAB, 0xCD, 0xFF, 0xFE]) =
      [0x32, 0x09, 0xAB, 0xCD, 0xFF, 0xFE] :=
  ⟨by decide,
    (extract_round_trip true 0x32 0x09 0xAB 0xCD 0xFF 0xFE
      (by decide) (by decide) (by decide) (by decide) (by decide) (by decide)).2.2.1,
    (extract_round_trip true 0x32 0x09 0xAB 0xCD 0xFF 0xFE
      (by decide) (by decide) (by decide) (by decide) (by decide) (by decide)).2.2.2.2.2.2.2.2⟩

/-- C5. For every 16-bit sequence number the response consists of exactly the
three bytes 2, (seq >> 8) & 0xFF, seq & 0xFF, and reading them back as
result = byte 0 and sequence = byte 1 * 256 + byte 2 gives result 2 and the
same sequence number. -/
theorem response_round_trip (seq : Nat) (h : seq < 65536) :
    response_payload_data result seq = [2, (seq >>> 8) &&& 0xFF, seq &&& 0xFF] ∧
    (response_payload_data result seq).length = 3 ∧
    response_fields_of_bytes (response_payload_data result seq) = some (2, seq) := by
  have hb : response_payload_data result seq = [2, seq / 256 % 256, seq % 256] := by
    rw [response_bytes]; simp [result]
  refine ⟨?_, by rw [hb]; rfl, ?_⟩
  · rw [hb, and_0xFF, and_0xFF, Nat.shiftRight_eq_div_pow]
  · rw [hb]
    simp only [response_fields_of_bytes]
    have : seq / 256 % 256 * 256 + seq % 256 = seq := by omega
    rw [this]

/-- The largest sequence number, 65535, survives the round trip. -/
theorem response_round_trip_witness :
    (65535 : Nat) < 65536 ∧
    (response_payload_data result 65535 = [2, (65535 >>> 8) &&& 0xFF, 65535 &&& 0xFF] ∧
      (response_payload_data result 65535).length = 3 ∧
      response_fields_of_bytes (response_payload_data result 65535) = some (2, 65535)) :=
  ⟨by decide, response_round_trip 65535 (by decide)⟩

/-! ## Registration -/

/-- C6, as the code has it.  In every state on_state(ST_REGISTERED) sets
is_registered_ (also when it was set already) and calls offer_service once,
inside the call itself; blocked_, running_ and the offer thread are left as
they were.  The events REGISTERED, REGISTERED, DEREGISTERED, REGISTERED from
the initial state end with is_registered_ set, one offer_service call for each
of the three REGISTERED events, and blocked_ still false. -/
theorem on_state_registered (s : service_sample) (r : Bool) (w : Nat) :
    on_state state_type_e.ST_REGISTERED s =
      { s with is_registered_ := true, calls := s.calls ++ [Call.offer_service] } ∧
    (exec (construct r w)
      [Action.state state_type_e.ST_REGISTERED, Action.state state_type_e.ST_REGISTERED,
       Action.state state_type_e.ST_DEREGISTERED,
       Action.state state_type_e.ST_REGISTERED]).is_registered_ = true ∧
    (exec (construct r w)
      [Action.state state_type_e.ST_REGISTERED, Action.state state_type_e.ST_REGISTERED,
       Action.state state_type_e.ST_DEREGISTERED,
       Action.state state_type_e.ST_REGISTERED]).calls =
      [Call.offer_service, Call.offer_service, Call.stop_offer_service, Call.offer_service] ∧
    (exec (construct r w)
      [Action.state state_type_e.ST_REGISTERED, Action.state state_type_e.ST_REGISTERED,
       Action.state state_type_e.ST_DEREGISTERED,
       Action.state state_type_e.ST_REGISTERED]).blocked_ = false :=
  ⟨rfl, rfl, rfl, rfl⟩

/-- C6, as stated, fails in the initial state: after on_state(ST_REGISTERED)
the flag blocked_ is not raised, and the offer thread, left to run, enters
condition_.wait and stays there without calling offer_service; the only offer
is the one made by on_state. -/
theorem on_state_registered_leaves_flag_down :
    ¬ ((on_state state_type_e.ST_REGISTERED (construct false 1)).blocked_ = true) ∧
    (run 8 (on_state state_type_e.ST_REGISTERED (construct false 1))).calls =
      [Call.offer_service] ∧
    (run 8 (on_state state_type_e.ST_REGISTERED (construct false 1))).run_at =
      run_pc.waiting := by
  decide

/-- C7. In every state on_state(ST_DEREGISTERED) clears is_registered_ and
calls stop_offer_service exactly once, inside the call itself; it calls
offer_service not at all and leaves blocked_ and running_ as they were.  Hence
over any sequence of state events the number of stop_offer_service calls grows
by the number of deregistration events. -/
theorem on_state_deregistered (s : service_sample) (events : List state_type_e) :
    on_state state_type_e.ST_DEREGISTERED s =
      { s with is_registered_ := false, calls := s.calls ++ [Call.stop_offer_service] } ∧
    (on_state state_type_e.ST_DEREGISTERED s).calls.count Call.stop_offer_service =
      s.calls.count Call.stop_offer_service + 1 ∧
    (on_state state_type_e.ST_DEREGISTERED s).calls.count Call.offer_service =
      s.calls.count Call.offer_service ∧
    (on_state state_type_e.ST_DEREGISTERED s).blocked_ = s.blocked_ ∧
    (on_state state_type_e.ST_DEREGISTERED s).running_ = s.running_ ∧
    (exec s (events.map Action.state)).calls.count Call.stop_offer_service =
      s.calls.count Call.stop_offer_service + events.count state_type_e.ST_DEREGISTERED := by
  refine ⟨rfl, ?_, ?_, rfl, rfl, exec_states_count_stop_offer events s⟩
  · simp [on_state, stop_offer, emit, List.count_append]
  · simp [on_state, stop_offer, emit, List.count_append]

/-! ## Shutdown -/

/-- C9, evaluated where the code departs from it.  The endpoint registers, the
offer thread enters its loop, and stop is called from another thread, either
just before the offer thread tests blocked_ (one step) or while it is inside
condition_.wait (three steps).  In the state reached, running_ is false, yet
the last of the offer_service and stop_offer_service calls is an
offer_service: the offer thread, let through by stop, offers the service again
after stop has withdrawn it. -/
theorem offered_after_stop :
    offered (exec (construct false 1)
      [Action.state state_type_e.ST_REGISTERED, Action.worker, Action.stop 0]).calls = true ∧
    (exec (construct false 1)
      [Action.state state_type_e.ST_REGISTERED, Action.worker, Action.stop 0]).is_registered_ = true ∧
    (exec (construct false 1)
      [Action.state state_type_e.ST_REGISTERED, Action.worker, Action.stop 0]).running_ = false ∧
    (exec (construct false 1)
      [Action.state state_type_e.ST_REGISTERED, Action.worker, Action.stop 0]).calls =
      [Call.offer_service, Call.clear_all_handler, Call.stop_offer_service, Call.offer_service,
       Call.sleep_for 1000, Call.thread_join, Call.app_stop] ∧
    (exec (construct false 1)
      [Action.state state_type_e.ST_REGISTERED, Action.worker, Action.worker,
       Action.worker]).run_at = run_pc.waiting ∧
    offered (exec (construct false 1)
      [Action.state state_type_e.ST_REGISTERED, Action.worker, Action.worker, Action.worker,
       Action.stop 0]).calls = true ∧
    (exec (construct false 1)
      [Action.state state_type_e.ST_REGISTERED, Action.worker, Action.worker, Action.worker,
       Action.stop 0]).is_registered_ = true ∧
    (exec (construct false 1)
      [Action.state state_type_e.ST_REGISTERED, Action.worker, Action.worker, Action.worker,
       Action.stop 0]).running_ = false ∧
    (exec (construct false 1)
      [Action.state state_type_e.ST_REGISTERED, Action.worker, Action.worker, Action.worker,
       Action.stop 0]).calls =
      [Call.offer_service, Call.clear_all_handler, Call.stop_offer_service, Call.offer_service,
       Call.sleep_for 1000, Call.thread_join, Call.app_stop] := by
  decide

/-- C10, evaluated where the code departs from it.  The endpoint is registered
and the offer thread stands at its test of blocked_ (first five parts) or is
inside condition_.wait (remaining parts); stop has set running_ to false and
blocked_ to true, withdrawn the offer and notified.  Let through, the offer
thread calls offer_service once more and sleeps before it leaves run. -/
theorem run_offers_on_shutdown_wake :
    (stop_request (exec (construct false 1)
      [Action.state state_type_e.ST_REGISTERED, Action.worker])).running_ = false ∧
    (stop_request (exec (construct false 1)
      [Action.state state_type_e.ST_REGISTERED, Action.worker])).blocked_ = true ∧
    (stop_request (exec (construct false 1)
      [Action.state state_type_e.ST_REGISTERED, Action.worker])).run_at = run_pc.wait_test ∧
    (run 6 (stop_request (exec (construct false 1)
      [Action.state state_type_e.ST_REGISTERED, Action.worker]))).calls =
      (stop_request (exec (construct false 1)
        [Action.state state_type_e.ST_REGISTERED, Action.worker])).calls ++
        [Call.offer_service, Call.sleep_for 1000] ∧
    (run 6 (stop_request (exec (construct false 1)
      [Action.state state_type_e.ST_REGISTERED, Action.worker]))).run_at = run_pc.returned ∧
    (exec (construct false 1)
      [Action.state state_type_e.ST_REGISTERED, Action.worker, Action.worker,
       Action.worker]).run_at = run_pc.waiting ∧
    (stop_request (exec (construct false 1)
      [Action.state state_type_e.ST_REGISTERED, Action.worker, Action.worker,
       Action.worker])).running_ = false ∧
    (stop_request (exec (construct false 1)
      [Action.state state_type_e.ST_REGISTERED, Action.worker, Action.worker,
       Action.worker])).blocked_ = true ∧
    (stop_request (exec (construct false 1)
      [Action.state state_type_e.ST_REGISTERED, Action.worker, Action.worker,
       Action.worker])).run_at = run_pc.wait_test ∧
    (run 6 (stop_request (exec (construct false 1)
      [Action.state state_type_e.ST_REGISTERED, Action.worker, Action.worker,
       Action.worker]))).calls =
      (stop_request (exec (construct false 1)
        [Action.state state_type_e.ST_REGISTERED, Action.worker, Action.worker,
         Action.worker])).calls ++ [Call.offer_service, Call.sleep_for 1000] ∧
    (run 6 (stop_request (exec (construct false 1)
      [Action.state state_type_e.ST_REGISTERED, Action.worker, Action.worker,
       Action.worker]))).run_at = run_pc.returned := by
  decide

end ResponseSample
